import Mathlib

/-!
Shallow embedding of the autonomous-ontology change-safety pipeline
(`app/autonomous_ontology` in the `binah-aip` service): the query replay
engine, the impact analyzer, the simulation orchestration, and the approval
workflow engine.  Python floats are modelled as exact rationals (`ℚ`); the
per-query sandbox measurements and the per-step exception behaviour of the
orchestrator are made explicit inputs, since the Python code obtains them
from wall-clock timing and raised exceptions respectively.
-/

namespace AutonomousOntology

/-- `RiskLevel` enum from `models.py`. -/
inductive RiskLevel
  | safe
  | low
  | medium
  | high
  | critical
deriving DecidableEq, Repr

/-- `ApprovalStatus` enum from `models.py`. -/
inductive ApprovalStatus
  | pending
  | approved
  | rejected
  | changes_requested
deriving DecidableEq, Repr

/-- `Approval` record from `models.py` (timestamps omitted: no claim reads them). -/
structure Approval where
  approver_id : String
  approver_role : String
  status : ApprovalStatus
  comments : String := ""
deriving DecidableEq, Repr

/-- `WorkflowState` from `models.py`.  `current_state` is the string the
workflow engine assigns; `scheduled_execution` (a datetime in the source)
is modelled as the flag of whether it has been set. -/
structure WorkflowState where
  recommendation_id : String
  current_state : String
  approvals : List Approval
  required_approvals : Nat
  scheduled_execution : Bool := false
deriving DecidableEq, Repr

/-- `MigrationStrategy` from `models.py` (the risk computation reads only
`required`; the other fields are carried through the `ImpactReport`). -/
structure MigrationStrategy where
  required : Bool := false
  affected_records : Nat := 0
  backfill_strategy : String := "lazy"
deriving DecidableEq, Repr

/-- `Implementation` from `models.py` (only the fields the pipeline reads). -/
structure Implementation where
  migration_strategy : MigrationStrategy
  breaking_changes : List String := []
deriving DecidableEq, Repr

/-- The `usage_metrics` dict of a `Recommendation`, restricted to the keys
`_extract_affected_entities` probes (`affected_entities`, `from_entity`,
`to_entity`); a `none` models the key being absent. -/
structure UsageMetricsDict where
  affected_entities : Option (List String) := none
  from_entity : Option String := none
  to_entity : Option String := none
deriving DecidableEq, Repr

/-- `Recommendation` from `models.py`, restricted to the fields the
simulation/approval pipeline reads. -/
structure Recommendation where
  id : String
  implementation : Implementation
  usage_metrics : UsageMetricsDict := {}
deriving DecidableEq, Repr

/-- One entry of the replayed query log together with the sandbox-side
observation for it: `baseline_ms` is the recorded `duration_ms` of the log
entry, `sandbox_ms` the wall-clock duration measured in the sandbox, and
`success` whether execution raised.  The Python engine obtains the last two
from the actual (timed) execution; they are inputs of the model. -/
structure ReplayOutcome where
  query_id : String
  baseline_ms : ℚ
  sandbox_ms : ℚ
  success : Bool
deriving DecidableEq, Repr

/-- The `performance` dict built by `_replay_single_query` on success. -/
structure PerfChange where
  query_id : String
  baseline_ms : ℚ
  sandbox_ms : ℚ
  change_percent : ℚ
  improved : Bool
deriving DecidableEq, Repr

/-- The `error` dict built by `_replay_single_query` on failure
(the message text is irrelevant to every claim and omitted). -/
structure ReplayError where
  query_id : String
deriving DecidableEq, Repr

/-- The `results` dict of `replay_queries` (its `summary` entry is the
value of `calculate_summary` on the same record, see `_calculate_summary`). -/
structure ReplayResults where
  total_queries : Nat
  successful : Nat
  failed : Nat
  performance_changes : List PerfChange
  errors : List ReplayError
deriving DecidableEq, Repr

/-- `QueryReplayEngine._replay_single_query`: a successful execution yields a
performance record with `change_percent = (sandbox - baseline)/baseline * 100`
(0 when the baseline is not positive) and `improved = change_percent < 0`;
a failure yields an error record. -/
def replay_single_query (o : ReplayOutcome) : Sum PerfChange ReplayError :=
  if o.success then
    let perf_change : ℚ :=
      if 0 < o.baseline_ms then (o.sandbox_ms - o.baseline_ms) / o.baseline_ms * 100 else 0
    Sum.inl
      { query_id := o.query_id
        baseline_ms := o.baseline_ms
        sandbox_ms := o.sandbox_ms
        change_percent := perf_change
        improved := decide (perf_change < 0) }
  else
    Sum.inr { query_id := o.query_id }

/-- `QueryReplayEngine.replay_queries`: every query is replayed, successes
accumulate into `performance_changes`, failures into `errors`, preserving
the log order. -/
def replay_queries (query_log : List ReplayOutcome) : ReplayResults :=
  let replayed := query_log.map replay_single_query
  let perf := replayed.filterMap Sum.getLeft?
  let errs := replayed.filterMap Sum.getRight?
  { total_queries := query_log.length
    successful := perf.length
    failed := errs.length
    performance_changes := perf
    errors := errs }

/-- The `summary` dict built by `QueryReplayEngine._calculate_summary`
(`median_change_percent` is absent when there are no performance changes). -/
structure ReplaySummary where
  average_change_percent : ℚ
  queries_improved : Nat
  queries_degraded : Nat
  max_improvement_percent : ℚ
  max_degradation_percent : ℚ
  median_change_percent : Option ℚ
deriving DecidableEq, Repr

/-- `QueryReplayEngine._calculate_summary`: statistics over the successful
performance changes; `queries_degraded` is the number of successes minus
the number with `improved` set. -/
def calculate_summary (results : ReplayResults) : ReplaySummary :=
  let perf_changes := results.performance_changes
  if perf_changes.isEmpty then
    { average_change_percent := 0
      queries_improved := 0
      queries_degraded := 0
      max_improvement_percent := 0
      max_degradation_percent := 0
      median_change_percent := none }
  else
    let change_percents := perf_changes.map (·.change_percent)
    let improved_count := (perf_changes.filter (·.improved)).length
    let degraded_count := perf_changes.length - improved_count
    { average_change_percent := change_percents.sum / (change_percents.length : ℚ)
      queries_improved := improved_count
      queries_degraded := degraded_count
      max_improvement_percent := (change_percents.min?).getD 0
      max_degradation_percent := (change_percents.max?).getD 0
      median_change_percent :=
        some (((change_percents.mergeSort (fun a b => decide (a ≤ b))).getD
          (change_percents.length / 2) 0)) }

/-- One breaking change detected by `detect_breaking_changes`
(the dict's `type`, `severity` and `query_id` keys; the free-text fields
are irrelevant to every claim). -/
structure BreakingChange where
  type : String
  severity : String
  query_id : String
deriving DecidableEq, Repr

/-- `QueryReplayEngine.detect_breaking_changes`: every replay error becomes a
`critical` `query_failure`; every success whose duration change exceeds
+100% becomes a `high` `performance_degradation`. -/
def detect_breaking_changes (replay_results : ReplayResults) : List BreakingChange :=
  (replay_results.errors.map fun e =>
    { type := "query_failure", severity := "critical", query_id := e.query_id })
  ++ ((replay_results.performance_changes.filter fun p => decide (p.change_percent > 100)).map
    fun p =>
      { type := "performance_degradation", severity := "high", query_id := p.query_id })

/-- `CompatibilityResult` from `models.py`. -/
structure CompatibilityResult where
  breaking_changes : Nat := 0
  failing_queries : List String := []
  affected_entities : List String := []
deriving DecidableEq, Repr

/-- `PerformanceResult` from `models.py`. -/
structure PerformanceResult where
  queries_tested : Nat := 0
  average_improvement : ℚ := 0
  queries_improved : Nat := 0
  queries_degraded : Nat := 0
  outliers : List PerfChange := []
deriving DecidableEq, Repr

/-- `ImpactReport` from `models.py` (`recommendation_action` is the verdict
string `"approve"`, `"reject"` or `"needs_review"`). -/
structure ImpactReport where
  recommendation_id : String
  compatibility : CompatibilityResult
  performance : PerformanceResult
  data_migration : MigrationStrategy
  risk_score : ℚ
  risk_level : RiskLevel
  recommendation_action : String
deriving DecidableEq, Repr

/-- `ImpactAnalyzer._extract_affected_entities`: the `affected_entities` key
if present, else the `[from_entity, to_entity]` pair if both present, else
the empty list. -/
def extract_affected_entities (recommendation : Recommendation) : List String :=
  match recommendation.usage_metrics.affected_entities with
  | some entities => entities
  | none =>
    match recommendation.usage_metrics.from_entity, recommendation.usage_metrics.to_entity with
    | some f, some t => [f, t]
    | _, _ => []

/-- `ImpactAnalyzer._find_performance_outliers` at its default 50% threshold. -/
def find_performance_outliers (replay_results : ReplayResults) : List PerfChange :=
  replay_results.performance_changes.filter fun p => decide (|p.change_percent| > 50)

/-- `ImpactAnalyzer._calculate_risk_score`: penalty accumulation capped at
100.  `other_failures` is computed in `ℚ` because Python evaluates
`compatibility.breaking_changes - critical_failures` over unbounded ints. -/
def calculate_risk_score (recommendation : Recommendation)
    (compatibility : CompatibilityResult) (performance : PerformanceResult)
    (breaking_changes : List BreakingChange) : ℚ :=
  let score : ℚ := 0
  let score :=
    if compatibility.breaking_changes > 0 then
      let critical_failures :=
        (breaking_changes.filter fun bc => bc.severity == "critical").length
      let other_failures : ℚ :=
        (compatibility.breaking_changes : ℚ) - (critical_failures : ℚ)
      score + (critical_failures : ℚ) * 25 + other_failures * 10
    else score
  let score :=
    if performance.average_improvement < 0 then
      score + |performance.average_improvement| / 10
    else score
  let score :=
    if performance.queries_tested > 0 then
      score + (performance.queries_degraded : ℚ) / (performance.queries_tested : ℚ) * 20
    else score
  let score :=
    if recommendation.implementation.migration_strategy.required then score + 15 else score
  let score := score + (recommendation.implementation.breaking_changes.length : ℚ) * 5
  let score :=
    if compatibility.affected_entities.length > 3 then score + 10 else score
  min score 100

/-- `ImpactAnalyzer._determine_risk_level`. -/
def determine_risk_level (risk_score : ℚ) : RiskLevel :=
  if risk_score < 20 then .safe
  else if risk_score < 40 then .low
  else if risk_score < 60 then .medium
  else if risk_score < 80 then .high
  else .critical

/-- `ImpactAnalyzer._make_recommendation`: the `for` loop over
`failing_queries` returns `"reject"` iff that list is non-empty; with
`breaking_changes > 0` but no failing query it falls through. -/
def make_recommendation (risk_score : ℚ) (compatibility : CompatibilityResult)
    (performance : PerformanceResult) : String :=
  if compatibility.breaking_changes > 0 ∧ compatibility.failing_queries ≠ [] then "reject"
  else if performance.average_improvement < -50 then "reject"
  else if risk_score < 20 ∧ performance.average_improvement > 0 then "approve"
  else "needs_review"

/-- `ImpactAnalyzer.analyze_impact`: assembles the compatibility and
performance views, scores the risk, and produces the verdict.  The
`summary` read from `replay_results` is the one `replay_queries` stored,
i.e. `calculate_summary` of the same record. -/
def analyze_impact (recommendation : Recommendation) (replay_results : ReplayResults)
    (breaking_changes : List BreakingChange) : ImpactReport :=
  let compatibility : CompatibilityResult :=
    { breaking_changes := breaking_changes.length
      failing_queries :=
        (breaking_changes.filter fun bc => bc.type == "query_failure").map (·.query_id)
      affected_entities := extract_affected_entities recommendation }
  let summary := calculate_summary replay_results
  let performance : PerformanceResult :=
    { queries_tested := replay_results.total_queries
      average_improvement := summary.average_change_percent
      queries_improved := summary.queries_improved
      queries_degraded := summary.queries_degraded
      outliers := find_performance_outliers replay_results }
  let risk_score := calculate_risk_score recommendation compatibility performance breaking_changes
  { recommendation_id := recommendation.id
    compatibility := compatibility
    performance := performance
    data_migration := recommendation.implementation.migration_strategy
    risk_score := risk_score
    risk_level := determine_risk_level risk_score
    recommendation_action := make_recommendation risk_score compatibility performance }

/-- The steps of `AutonomousOntologyOrchestrator.simulate_recommendation`
that execute after `create_sandbox` inside the same `try` block; an
exception raised in any of them (or in `create_sandbox` itself) transfers
control to the `except` handler. -/
inductive SimStep
  | create_sandbox
  | copy_production_data
  | apply_changes
  | load_query_log
  | replay_step
  | detect_breaking
  | analyze
deriving DecidableEq, Repr

/-- Observable outcome of one `simulate_recommendation` call:
the returned report, whether `create_sandbox` returned a handle, and how
many times `destroy_sandbox` was called on that handle before returning. -/
structure SimulationRun where
  report : ImpactReport
  sandbox_created : Bool
  destroy_calls : Nat
deriving Repr

/-- The fallback report built in the `except` branch of
`simulate_recommendation`: empty compatibility and performance results,
`risk_score = 50.0`, `RiskLevel.MEDIUM`, verdict `"needs_review"`. -/
def default_error_report (recommendation : Recommendation) : ImpactReport :=
  { recommendation_id := recommendation.id
    compatibility := {}
    performance := {}
    data_migration := recommendation.implementation.migration_strategy
    risk_score := 50
    risk_level := .medium
    recommendation_action := "needs_review" }

/-- `AutonomousOntologyOrchestrator.simulate_recommendation`.  `fault`
injects the exception behaviour: `none` means every step succeeds,
`some s` means step `s` raises.  `query_log` is the oracle of per-query
sandbox observations for the replay step.  `destroy_sandbox` appears only
as step 8 of the `try` block, after the impact report is built; the
`except` handler returns the fallback report without touching the sandbox. -/
def simulate_recommendation (recommendation : Recommendation)
    (query_log : List ReplayOutcome) (fault : Option SimStep) : SimulationRun :=
  match fault with
  | some .create_sandbox =>
    { report := default_error_report recommendation
      sandbox_created := false
      destroy_calls := 0 }
  | some _ =>
    { report := default_error_report recommendation
      sandbox_created := true
      destroy_calls := 0 }
  | none =>
    let replay_results := replay_queries query_log
    let breaking_changes := detect_breaking_changes replay_results
    { report := analyze_impact recommendation replay_results breaking_changes
      sandbox_created := true
      destroy_calls := 1 }

/-- `WorkflowEngine._determine_required_approvals`. -/
def determine_required_approvals : RiskLevel → Nat
  | .safe => 0
  | .low => 1
  | .medium => 2
  | .high => 3
  | .critical => 4

/-- `WorkflowEngine._auto_approve`: appends the system-authored approval
record and moves the workflow to `"approved"`. -/
def auto_approve (workflow : WorkflowState) : WorkflowState :=
  { workflow with
      approvals := workflow.approvals ++
        [{ approver_id := "system"
           approver_role := "auto-approval"
           status := .approved
           comments := "Auto-approved: Low risk, no breaking changes" }]
      current_state := "approved" }

/-- `WorkflowEngine.start_workflow`: creates the workflow in `"review"` with
the tier-derived approval count; a `SAFE` tier is auto-approved at once,
every other tier only triggers reviewer notifications (no state change). -/
def start_workflow (recommendation : Recommendation)
    (impact_report : ImpactReport) : WorkflowState :=
  let workflow : WorkflowState :=
    { recommendation_id := recommendation.id
      current_state := "review"
      approvals := []
      required_approvals := determine_required_approvals impact_report.risk_level
      scheduled_execution := false }
  if impact_report.risk_level = .safe then auto_approve workflow else workflow

/-- Number of approval records of a workflow whose decision is `APPROVED`
(the `approved_count` computed inside `submit_approval`). -/
def approved_count (w : WorkflowState) : Nat :=
  (w.approvals.filter fun a => a.status == .approved).length

/-- Number of approval records whose decision is `REJECTED`
(the `rejected_count` computed inside `submit_approval`). -/
def rejected_count (w : WorkflowState) : Nat :=
  (w.approvals.filter fun a => a.status == .rejected).length

/-- `WorkflowEngine.submit_approval` restricted to one workflow: the new
approval record is appended unconditionally, then the phase is recomputed —
any rejected record forces `"rejected"`, else reaching the required approve
count forces `"approved"` and schedules execution, else the phase is left
unchanged. -/
def submit_approval (workflow : WorkflowState) (approval : Approval) : WorkflowState :=
  let approvals := workflow.approvals ++ [approval]
  let approved := (approvals.filter fun a => a.status == .approved).length
  let rejected := (approvals.filter fun a => a.status == .rejected).length
  if rejected > 0 then
    { workflow with approvals := approvals, current_state := "rejected" }
  else if approved ≥ workflow.required_approvals then
    { workflow with
        approvals := approvals
        current_state := "approved"
        scheduled_execution := true }
  else
    { workflow with approvals := approvals }

/-- A sequence of `submit_approval` calls against the same workflow. -/
def submit_all (workflow : WorkflowState) (decisions : List Approval) : WorkflowState :=
  decisions.foldl submit_approval workflow

/-- A recommendation with no required migration, no declared breaking
changes, and two affected entities. -/
def demo_recommendation : Recommendation :=
  { id := "rec-1"
    implementation := { migration_strategy := {} }
    usage_metrics := { affected_entities := some ["Property", "Lease"] } }

/-- An impact report in the `medium` tier (two approvals required). -/
def demo_report_medium : ImpactReport :=
  { recommendation_id := "rec-1"
    compatibility := {}
    performance := {}
    data_migration := {}
    risk_score := 45
    risk_level := .medium
    recommendation_action := "needs_review" }

/-- An impact report in the `low` tier (one approval required). -/
def demo_report_low : ImpactReport :=
  { recommendation_id := "rec-1"
    compatibility := {}
    performance := {}
    data_migration := {}
    risk_score := 25
    risk_level := .low
    recommendation_action := "needs_review" }

/-- The workflow `start_workflow` creates for a `medium`-tier report. -/
def w_medium : WorkflowState := start_workflow demo_recommendation demo_report_medium

/-- The workflow `start_workflow` creates for a `low`-tier report. -/
def w_low : WorkflowState := start_workflow demo_recommendation demo_report_low

/-- An approve decision by reviewer alice. -/
def alice_approve : Approval :=
  { approver_id := "alice", approver_role := "ontology-admin", status := .approved }

/-- An approve decision by reviewer carol. -/
def carol_approve : Approval :=
  { approver_id := "carol", approver_role := "lead-engineer", status := .approved }

/-- A reject decision by reviewer bob. -/
def bob_reject : Approval :=
  { approver_id := "bob", approver_role := "lead-engineer", status := .rejected }

/-- A replay log in which the second operation fails. -/
def demo_log_failing : List ReplayOutcome :=
  [⟨"q1", 100, 120, true⟩, ⟨"q2", 80, 0, false⟩]

/-- A replay log with one +5% and one −5% operation (mean change 0). -/
def demo_log_balanced : List ReplayOutcome :=
  [⟨"q1", 100, 105, true⟩, ⟨"q2", 100, 95, true⟩]

/-- A replay log in which both operations get 5% faster (mean change −5%). -/
def demo_log_faster : List ReplayOutcome :=
  [⟨"q1", 100, 95, true⟩, ⟨"q2", 200, 190, true⟩]

/-- A replay log with a single operation whose duration is unchanged. -/
def demo_log_zero : List ReplayOutcome :=
  [⟨"q1", 100, 100, true⟩]

/-- The replay results of `demo_log_balanced`, written out. -/
def balanced_results : ReplayResults :=
  { total_queries := 2
    successful := 2
    failed := 0
    performance_changes :=
      [⟨"q1", 100, 105, 5, false⟩, ⟨"q2", 100, 95, -5, true⟩]
    errors := [] }

/-- The replay results of `demo_log_faster`, written out. -/
def faster_results : ReplayResults :=
  { total_queries := 2
    successful := 2
    failed := 0
    performance_changes :=
      [⟨"q1", 100, 95, -5, true⟩, ⟨"q2", 200, 190, -5, true⟩]
    errors := [] }

/-- The replay results of `demo_log_zero`, written out. -/
def zero_results : ReplayResults :=
  { total_queries := 1
    successful := 1
    failed := 0
    performance_changes := [⟨"q1", 100, 100, 0, false⟩]
    errors := [] }

/-- The position of a `RiskLevel` in the tier ladder, used to state that the
tier is a monotone function of the risk score. -/
def risk_level_order : RiskLevel → Nat
  | .safe => 0
  | .low => 1
  | .medium => 2
  | .high => 3
  | .critical => 4

lemma submit_approval_approvals (w : WorkflowState) (a : Approval) :
    (submit_approval w a).approvals = w.approvals ++ [a] := by
  simp only [submit_approval]
  split_ifs <;> rfl

lemma submit_approval_rejected_mem (w : WorkflowState) (a : Approval)
    (h : ∃ b ∈ w.approvals ++ [a], b.status = .rejected) :
    (submit_approval w a).current_state = "rejected" := by
  obtain ⟨b, hb, hrb⟩ := h
  have hmem : b ∈ (w.approvals ++ [a]).filter fun x => x.status == .rejected := by
    rw [List.mem_filter]
    exact ⟨hb, by simp [hrb]⟩
  have hpos :
      0 < ((w.approvals ++ [a]).filter fun x => x.status == .rejected).length :=
    List.length_pos_of_mem hmem
  simp only [submit_approval]
  rw [if_pos hpos]

lemma submit_all_rejected (rest : List Approval) :
    ∀ w : WorkflowState, (∃ b ∈ w.approvals, b.status = .rejected) →
      w.current_state = "rejected" → (submit_all w rest).current_state = "rejected" := by
  induction rest with
  | nil => exact fun w _ hw => hw
  | cons a rest ih =>
    intro w hex hw
    obtain ⟨b, hb, hrb⟩ := hex
    have hmem : b ∈ (submit_approval w a).approvals := by
      rw [submit_approval_approvals]
      exact List.mem_append_left _ hb
    exact ih (submit_approval w a) ⟨b, hmem, hrb⟩
      (submit_approval_rejected_mem w a ⟨b, List.mem_append_left _ hb, hrb⟩)

/-- C4 — counterexample.  The claim says a second identical decision from the
same approver leaves approval progress and phase unchanged; in the code,
`submit_approval` appends every record, so alice approving the two-approval
workflow twice raises the credited count from 1 to 2 and flips the phase
from `"review"` to `"approved"`. -/
theorem C4_counterexample :
    approved_count (submit_approval w_medium alice_approve) = 1 ∧
    (submit_approval w_medium alice_approve).current_state = "review" ∧
    approved_count (submit_approval (submit_approval w_medium alice_approve) alice_approve) = 2 ∧
    (submit_approval (submit_approval w_medium alice_approve) alice_approve).current_state
      = "approved" := by
  decide

/-- C4 — amended.  `submit_approval` is not idempotent by approver identity:
re-submitting the same approver's identical approve decision appends a
second record and increases the credited approval count by exactly one
(and can therefore advance the phase once the threshold is crossed). -/
theorem C4_resubmission_double_counts (w : WorkflowState) (i r c : String) :
    approved_count
        (submit_approval (submit_approval w ⟨i, r, .approved, c⟩) ⟨i, r, .approved, c⟩)
      = approved_count (submit_approval w ⟨i, r, .approved, c⟩) + 1 := by
  simp [approved_count, submit_approval_approvals, List.filter_append]

/-- C5 — confirmed.  A single reject decision moves the workflow to
`"rejected"` immediately, and no sequence of later submissions (approvals
included) can ever bring it to `"approved"`: every later `submit_approval`
recomputes the phase with the absorbed reject record still present. -/
theorem C5_reject_is_absorbing (w : WorkflowState) (a : Approval)
    (ha : a.status = .rejected) (rest : List Approval) :
    (submit_approval w a).current_state = "rejected" ∧
    (submit_all (submit_approval w a) rest).current_state ≠ "approved" := by
  have hmem : ∃ b ∈ w.approvals ++ [a], b.status = .rejected :=
    ⟨a, List.mem_append_right _ (List.mem_singleton_self a), ha⟩
  have h1 : (submit_approval w a).current_state = "rejected" :=
    submit_approval_rejected_mem w a hmem
  have h2 : (submit_all (submit_approval w a) rest).current_state = "rejected" := by
    refine submit_all_rejected rest _ ⟨a, ?_, ha⟩ h1
    rw [submit_approval_approvals]
    exact List.mem_append_right _ (List.mem_singleton_self a)
  exact ⟨h1, by rw [h2]; decide⟩

/-- C5 — witness: bob rejects the two-approval workflow and two later
approvals cannot make it approved. -/
theorem C5_witness :
    (submit_approval w_medium bob_reject).current_state = "rejected" ∧
    (submit_all (submit_approval w_medium bob_reject)
      [alice_approve, carol_approve]).current_state ≠ "approved" :=
  C5_reject_is_absorbing w_medium bob_reject rfl [alice_approve, carol_approve]

/-- C8 — counterexample.  The claim says a workflow that has reached
`approved` can never subsequently become `rejected`; in the code a reject
submitted after approval recomputes the phase and moves the one-approval
workflow from `"approved"` to `"rejected"`. -/
theorem C8_counterexample :
    (submit_approval w_low alice_approve).current_state = "approved" ∧
    (submit_approval (submit_approval w_low alice_approve) bob_reject).current_state
      = "rejected" := by
  decide

/-- C8 — amended.  `submit_approval` moves the phase only to `"rejected"`
(any reject record present) or `"approved"` (threshold reached), otherwise
leaves it; the `approved` phase is stable only in the absence of reject
decisions — with no reject on record and a non-reject submission, an
approved workflow stays approved, but a later reject does regress it to
`rejected` (see the counterexample). -/
theorem C8_approved_stable_without_reject (w : WorkflowState) (a : Approval)
    (hw : w.current_state = "approved") (ha : a.status ≠ .rejected)
    (hnone : ∀ b ∈ w.approvals, b.status ≠ .rejected) :
    (submit_approval w a).current_state = "approved" := by
  have hfil : ((w.approvals ++ [a]).filter fun x => x.status == .rejected) = [] := by
    rw [List.filter_eq_nil_iff]
    intro b hb
    rcases List.mem_append.mp hb with hb' | hb'
    · simp [hnone b hb']
    · rw [List.mem_singleton.mp hb']
      simp [ha]
  simp only [submit_approval, hfil]
  split_ifs <;> simp_all

/-- C8 — witness: with alice's approval on record and no rejects, carol's
additional approval keeps the workflow approved. -/
theorem C8_witness :
    (submit_approval (submit_approval w_low alice_approve) carol_approve).current_state
      = "approved" :=
  C8_approved_stable_without_reject (submit_approval w_low alice_approve) carol_approve
    (by decide) (by decide) (by decide)

/-- C1 — counterexample.  The claim says `destroy_sandbox` is called exactly
once before `simulate_recommendation` returns on every exit path; when the
data-copy step raises after `create_sandbox` returned a handle, the
`except` handler returns the fallback report with zero `destroy_sandbox`
calls. -/
theorem C1_counterexample :
    (simulate_recommendation demo_recommendation []
      (some .copy_production_data)).sandbox_created = true ∧
    (simulate_recommendation demo_recommendation []
      (some .copy_production_data)).destroy_calls = 0 :=
  ⟨rfl, rfl⟩

/-- C1 — amended.  `destroy_sandbox` is called exactly once when every step
of the simulation succeeds, and zero times on every faulting run — in
particular, when data copy, change application, query replay, breaking
change detection, or scoring raises after `create_sandbox` returned a
handle, the sandbox is not destroyed before `simulate_recommendation`
returns. -/
theorem C1_destroy_only_on_success_path (recommendation : Recommendation)
    (query_log : List ReplayOutcome) (fault : Option SimStep) :
    (simulate_recommendation recommendation query_log fault).destroy_calls
      = if fault = none then 1 else 0 := by
  cases fault with
  | none => rfl
  | some s => cases s <;> rfl

/-- C9 — confirmed.  Whatever step of the simulation raises, the returned
report is the conservative fallback: verdict `"needs_review"`, risk score
exactly 50, `medium` tier, and in particular never `"approve"`. -/
theorem C9_error_path_is_conservative (recommendation : Recommendation)
    (query_log : List ReplayOutcome) (s : SimStep) :
    (simulate_recommendation recommendation query_log (some s)).report.recommendation_action
      = "needs_review" ∧
    (simulate_recommendation recommendation query_log (some s)).report.risk_score = 50 ∧
    (simulate_recommendation recommendation query_log (some s)).report.risk_level
      = RiskLevel.medium ∧
    (simulate_recommendation recommendation query_log (some s)).report.recommendation_action
      ≠ "approve" := by
  cases s <;> refine ⟨rfl, rfl, rfl, ?_⟩ <;>
    · show ("needs_review" : String) ≠ "approve"
      decide

lemma replay_queries_errors_mem {query_log : List ReplayOutcome} {o : ReplayOutcome}
    (ho : o ∈ query_log) (hfail : o.success = false) :
    (⟨o.query_id⟩ : ReplayError) ∈ (replay_queries query_log).errors := by
  have hsingle : replay_single_query o = Sum.inr ⟨o.query_id⟩ := by
    simp [replay_single_query, hfail]
  simp only [replay_queries]
  rw [List.mem_filterMap]
  exact ⟨replay_single_query o, List.mem_map_of_mem _ ho, by rw [hsingle]; rfl⟩

/-- C2 — confirmed.  If any replayed operation fails, it is recorded as an
error, becomes a `critical` `query_failure` breaking change, and the verdict
of the impact analysis is `"reject"`, regardless of the recommendation, of
the numeric risk score, and of any performance improvement of the other
operations. -/
theorem C2_failing_op_forces_reject (recommendation : Recommendation)
    (query_log : List ReplayOutcome) (o : ReplayOutcome) (ho : o ∈ query_log)
    (hfail : o.success = false) :
    (analyze_impact recommendation (replay_queries query_log)
      (detect_breaking_changes (replay_queries query_log))).recommendation_action
      = "reject" := by
  have herr : (⟨o.query_id⟩ : ReplayError) ∈ (replay_queries query_log).errors :=
    replay_queries_errors_mem ho hfail
  set bcs := detect_breaking_changes (replay_queries query_log) with hbcs
  have hbc : (⟨"query_failure", "critical", o.query_id⟩ : BreakingChange) ∈ bcs := by
    rw [hbcs]
    exact List.mem_append_left _ (List.mem_map_of_mem _ herr)
  have hlen : bcs.length > 0 := List.length_pos_of_mem hbc
  have hfq : o.query_id ∈
      (bcs.filter fun bc => bc.type == "query_failure").map (·.query_id) := by
    refine List.mem_map_of_mem _ (List.mem_filter.mpr ⟨hbc, by rfl⟩)
  have hne : ((bcs.filter fun bc => bc.type == "query_failure").map (·.query_id)) ≠ [] :=
    List.ne_nil_of_mem hfq
  simp only [analyze_impact, make_recommendation]
  rw [if_pos ⟨hlen, hne⟩]

/-- C2 — witness: a log whose second operation fails is rejected. -/
theorem C2_witness :
    (analyze_impact demo_recommendation (replay_queries demo_log_failing)
      (detect_breaking_changes (replay_queries demo_log_failing))).recommendation_action
      = "reject" :=
  C2_failing_op_forces_reject demo_recommendation demo_log_failing
    ⟨"q2", 80, 0, false⟩ (by decide) rfl

lemma replay_balanced_eval : replay_queries demo_log_balanced = balanced_results := by
  norm_num [replay_queries, replay_single_query, demo_log_balanced, balanced_results,
    Sum.getLeft?, Sum.getRight?, List.filterMap_cons, List.filterMap_nil]

lemma analyze_balanced_eval :
    (analyze_impact demo_recommendation balanced_results
      (detect_breaking_changes balanced_results)).risk_score = 10 ∧
    (analyze_impact demo_recommendation balanced_results
      (detect_breaking_changes balanced_results)).performance.average_improvement = 0 ∧
    (analyze_impact demo_recommendation balanced_results
      (detect_breaking_changes balanced_results)).compatibility.breaking_changes = 0 ∧
    (analyze_impact demo_recommendation balanced_results
      (detect_breaking_changes balanced_results)).recommendation_action = "needs_review" := by
  norm_num [analyze_impact, detect_breaking_changes, calculate_summary, calculate_risk_score,
    make_recommendation, determine_risk_level, extract_affected_entities,
    find_performance_outliers, demo_recommendation, balanced_results]

/-- C6 — counterexample.  A run with two successful operations at +5% and
−5% (mean change exactly 0), no failing operation, and risk score 10 < 20
gets verdict `"needs_review"`, not `"approve"`: the claim's "greater than
or equal to 0 (including exactly 0)" fails because the approve branch
requires a strictly positive mean change. -/
theorem C6_counterexample :
    (analyze_impact demo_recommendation (replay_queries demo_log_balanced)
      (detect_breaking_changes (replay_queries demo_log_balanced))).risk_score = 10 ∧
    (analyze_impact demo_recommendation (replay_queries demo_log_balanced)
      (detect_breaking_changes (replay_queries demo_log_balanced))).performance.average_improvement
      = 0 ∧
    (analyze_impact demo_recommendation (replay_queries demo_log_balanced)
      (detect_breaking_changes (replay_queries demo_log_balanced))).compatibility.breaking_changes
      = 0 ∧
    (analyze_impact demo_recommendation (replay_queries demo_log_balanced)
      (detect_breaking_changes (replay_queries demo_log_balanced))).recommendation_action
      = "needs_review" := by
  rw [replay_balanced_eval]
  exact analyze_balanced_eval

/-- C6 — amended.  With no failing replayed operation, risk score below 20
and a mean performance change strictly greater than 0, the verdict is
`"approve"`; at a mean change of exactly 0 the code instead answers
`"needs_review"`, because the approve branch tests
`average_improvement > 0`. -/
theorem C6_approve_needs_strict_improvement (risk_score : ℚ)
    (compatibility : CompatibilityResult) (performance : PerformanceResult)
    (h1 : compatibility.failing_queries = []) (h2 : risk_score < 20)
    (h3 : 0 < performance.average_improvement) :
    make_recommendation risk_score compatibility performance = "approve" := by
  simp only [make_recommendation]
  rw [if_neg fun hc => hc.2 h1, if_neg (by linarith), if_pos ⟨h2, h3⟩]

/-- C6 — witness: risk 10, mean change +5% is approved. -/
theorem C6_witness :
    make_recommendation 10 {} { average_improvement := 5 } = "approve" :=
  C6_approve_needs_strict_improvement 10 {} { average_improvement := 5 }
    rfl (by norm_num) (by norm_num)

lemma replay_faster_eval : replay_queries demo_log_faster = faster_results := by
  norm_num [replay_queries, replay_single_query, demo_log_faster, faster_results,
    Sum.getLeft?, Sum.getRight?, List.filterMap_cons, List.filterMap_nil]

lemma analyze_faster_eval :
    (analyze_impact demo_recommendation faster_results
      (detect_breaking_changes faster_results)).risk_score = 1 / 2 ∧
    (analyze_impact demo_recommendation faster_results
      (detect_breaking_changes faster_results)).risk_level = RiskLevel.safe ∧
    (analyze_impact demo_recommendation faster_results
      (detect_breaking_changes faster_results)).recommendation_action = "needs_review" := by
  norm_num [analyze_impact, detect_breaking_changes, calculate_summary, calculate_risk_score,
    make_recommendation, determine_risk_level, extract_affected_entities,
    find_performance_outliers, demo_recommendation, faster_results]

/-- C7 — counterexample.  For the end-to-end scenario (0 breaking changes,
mean replay change −5%, no migration, 2 affected entities) the claim says
risk score 0 and verdict approve; the code adds |−5|/10 = 0.5 for the
negative mean change and answers `"needs_review"` since the mean change is
not strictly positive. -/
theorem C7_counterexample :
    (analyze_impact demo_recommendation (replay_queries demo_log_faster)
      (detect_breaking_changes (replay_queries demo_log_faster))).risk_score ≠ 0 ∧
    (analyze_impact demo_recommendation (replay_queries demo_log_faster)
      (detect_breaking_changes (replay_queries demo_log_faster))).recommendation_action
      ≠ "approve" := by
  rw [replay_faster_eval]
  refine ⟨?_, ?_⟩
  · rw [analyze_faster_eval.1]
    norm_num
  · rw [analyze_faster_eval.2.2]
    decide

/-- C7 — amended.  In that scenario the computed risk score is 0.5 (the sole
penalty is |−5|/10 for the negative mean change), the tier is `safe`, the
analyzer's verdict is `"needs_review"` (approve requires a strictly
positive mean change), and the workflow nevertheless auto-approves the
safe-tier proposal with zero required approvals and a single
system-authored approval record. -/
theorem C7_scenario :
    (analyze_impact demo_recommendation (replay_queries demo_log_faster)
      (detect_breaking_changes (replay_queries demo_log_faster))).risk_score = 1 / 2 ∧
    (analyze_impact demo_recommendation (replay_queries demo_log_faster)
      (detect_breaking_changes (replay_queries demo_log_faster))).risk_level
      = RiskLevel.safe ∧
    (analyze_impact demo_recommendation (replay_queries demo_log_faster)
      (detect_breaking_changes (replay_queries demo_log_faster))).recommendation_action
      = "needs_review" ∧
    (start_workflow demo_recommendation
      (analyze_impact demo_recommendation (replay_queries demo_log_faster)
        (detect_breaking_changes (replay_queries demo_log_faster)))).current_state
      = "approved" ∧
    (start_workflow demo_recommendation
      (analyze_impact demo_recommendation (replay_queries demo_log_faster)
        (detect_breaking_changes (replay_queries demo_log_faster)))).required_approvals = 0 ∧
    (start_workflow demo_recommendation
      (analyze_impact demo_recommendation (replay_queries demo_log_faster)
        (detect_breaking_changes (replay_queries demo_log_faster)))).approvals.map
      (·.approver_id) = ["system"] := by
  rw [replay_faster_eval]
  have hsafe := analyze_faster_eval.2.1
  refine ⟨analyze_faster_eval.1, hsafe, analyze_faster_eval.2.2, ?_, ?_, ?_⟩ <;>
    simp [start_workflow, hsafe, auto_approve, determine_required_approvals]

lemma calculate_risk_score_nonneg (recommendation : Recommendation)
    (compatibility : CompatibilityResult) (performance : PerformanceResult)
    (breaking_changes : List BreakingChange)
    (h : ((breaking_changes.filter fun bc => bc.severity == "critical").length : ℚ)
      ≤ (compatibility.breaking_changes : ℚ)) :
    0 ≤ calculate_risk_score recommendation compatibility performance breaking_changes := by
  have h1 : (0:ℚ)
      ≤ ((breaking_changes.filter fun bc => bc.severity == "critical").length : ℚ) := by
    positivity
  have h2 : (0:ℚ) ≤ |performance.average_improvement| := abs_nonneg _
  have h3 : (0:ℚ) ≤ (performance.queries_degraded : ℚ) / (performance.queries_tested : ℚ) := by
    positivity
  have h4 : (0:ℚ) ≤ (recommendation.implementation.breaking_changes.length : ℚ) := by
    positivity
  simp only [calculate_risk_score]
  refine le_min ?_ (by norm_num)
  split_ifs <;> linarith

lemma risk_level_order_mono {s t : ℚ} (hst : s ≤ t) :
    risk_level_order (determine_risk_level s) ≤ risk_level_order (determine_risk_level t) := by
  unfold determine_risk_level
  split_ifs <;> first
    | (exfalso; linarith)
    | (simp only [risk_level_order]; omega)

/-- C3 — confirmed.  For every input to `analyze_impact` the risk score lies
in [0,100]; the report's risk tier is exactly `determine_risk_level` of its
risk score, a deterministic function of the score alone that is monotone in
the tier ladder, with the claimed boundaries: 19 ⇒ safe, 20 ⇒ low,
39 ⇒ low, 40 ⇒ medium, 59 ⇒ medium, 60 ⇒ high, 79 ⇒ high, 80 ⇒ critical. -/
theorem C3_risk_bounds_and_tier :
    (∀ (recommendation : Recommendation) (replay_results : ReplayResults)
        (breaking_changes : List BreakingChange),
      0 ≤ (analyze_impact recommendation replay_results breaking_changes).risk_score ∧
      (analyze_impact recommendation replay_results breaking_changes).risk_score ≤ 100) ∧
    (∀ (recommendation : Recommendation) (replay_results : ReplayResults)
        (breaking_changes : List BreakingChange),
      (analyze_impact recommendation replay_results breaking_changes).risk_level
        = determine_risk_level
            (analyze_impact recommendation replay_results breaking_changes).risk_score) ∧
    (∀ s t : ℚ, s ≤ t →
      risk_level_order (determine_risk_level s) ≤ risk_level_order (determine_risk_level t)) ∧
    determine_risk_level 19 = RiskLevel.safe ∧ determine_risk_level 20 = RiskLevel.low ∧
    determine_risk_level 39 = RiskLevel.low ∧ determine_risk_level 40 = RiskLevel.medium ∧
    determine_risk_level 59 = RiskLevel.medium ∧ determine_risk_level 60 = RiskLevel.high ∧
    determine_risk_level 79 = RiskLevel.high ∧ determine_risk_level 80 = RiskLevel.critical := by
  refine ⟨?_, ?_, fun s t hst => risk_level_order_mono hst, ?_, ?_, ?_, ?_, ?_, ?_, ?_, ?_⟩
  · intro recommendation replay_results breaking_changes
    constructor
    · simp only [analyze_impact]
      exact calculate_risk_score_nonneg _ _ _ _
        (by exact_mod_cast List.length_filter_le _ _)
    · simp only [analyze_impact, calculate_risk_score]
      exact min_le_right _ _
  · intro recommendation replay_results breaking_changes
    rfl
  all_goals norm_num [determine_risk_level]

/-- C3 — witness: the bounds at a concrete run and monotonicity at the
19/20 boundary. -/
theorem C3_witness :
    (0 ≤ (analyze_impact demo_recommendation balanced_results []).risk_score) ∧
    risk_level_order (determine_risk_level 19) ≤ risk_level_order (determine_risk_level 20) :=
  ⟨(C3_risk_bounds_and_tier.1 demo_recommendation balanced_results []).1,
    C3_risk_bounds_and_tier.2.2.1 19 20 (by norm_num)⟩

lemma performance_changes_improved_eq {query_log : List ReplayOutcome} {p : PerfChange}
    (hp : p ∈ (replay_queries query_log).performance_changes) :
    p.improved = decide (p.change_percent < 0) := by
  simp only [replay_queries] at hp
  rw [List.mem_filterMap] at hp
  obtain ⟨x, hx, hxp⟩ := hp
  rw [List.mem_map] at hx
  obtain ⟨o, ho, rfl⟩ := hx
  by_cases hs : o.success = true
  · simp only [replay_single_query, hs, if_true, Sum.getLeft?, Option.some.injEq] at hxp
    subst hxp
    rfl
  · simp [replay_single_query, hs, Sum.getLeft?] at hxp

lemma replay_zero_eval : replay_queries demo_log_zero = zero_results := by
  norm_num [replay_queries, replay_single_query, demo_log_zero, zero_results,
    Sum.getLeft?, Sum.getRight?, List.filterMap_cons, List.filterMap_nil]

lemma analyze_zero_eval :
    (calculate_summary zero_results).queries_degraded = 1 ∧
    (analyze_impact demo_recommendation zero_results
      (detect_breaking_changes zero_results)).risk_score = 20 := by
  norm_num [analyze_impact, detect_breaking_changes, calculate_summary, calculate_risk_score,
    extract_affected_entities, find_performance_outliers, demo_recommendation, zero_results,
    make_recommendation, determine_risk_level]

/-- C10 — confirmed.  `queries_degraded` is the number of successfully
replayed operations minus those with strictly negative duration change, so
an operation with change exactly 0 (or any non-negative change) counts as
degraded; concretely, a single unchanged-duration operation yields
`queries_degraded = 1` and drives the `(degraded/total) × 20` penalty to a
risk score of 20 instead of being neutral. -/
theorem C10_zero_change_counts_as_degraded :
    (∀ query_log : List ReplayOutcome,
      (calculate_summary (replay_queries query_log)).queries_degraded
        = (replay_queries query_log).performance_changes.length
          - ((replay_queries query_log).performance_changes.filter
              fun p => decide (p.change_percent < 0)).length) ∧
    (calculate_summary (replay_queries demo_log_zero)).queries_degraded = 1 ∧
    (analyze_impact demo_recommendation (replay_queries demo_log_zero)
      (detect_breaking_changes (replay_queries demo_log_zero))).risk_score = 20 := by
  refine ⟨?_, ?_, ?_⟩
  · intro query_log
    simp only [calculate_summary]
    split_ifs with h
    · rw [List.isEmpty_iff] at h
      rw [h]
      simp
    · have hcongr : (replay_queries query_log).performance_changes.filter (·.improved)
          = (replay_queries query_log).performance_changes.filter
              (fun p => decide (p.change_percent < 0)) :=
        List.filter_congr fun p hp => performance_changes_improved_eq hp
      rw [hcongr]
  · rw [replay_zero_eval]
    exact analyze_zero_eval.1
  · rw [replay_zero_eval]
    exact analyze_zero_eval.2

end AutonomousOntology
